import Mathlib

/-!
Verification of the GraphQL social-media backend
(resolvers, auth middleware, upload endpoint, schema).

The embedding translates the JavaScript source into Lean:
identifiers become `Nat`, timestamps become `Nat`, the Mongo store
becomes an explicit `Store` value threaded through each resolver,
thrown errors become `Except GqlError`, and filesystem / cross-document
side effects of `deletePost` and the upload endpoint are recorded in an
explicit effect trace plus a file-store value.
External libraries (validator, bcryptjs, jsonwebtoken, multer, fs) are
modelled by executable functions whose doc comments say what they model.
-/

namespace GqlApp

/-! ### Models of the external libraries -/

/-- Models `validator.isEmpty(s)`: true iff the string has zero length. -/
def isEmptyStr (s : String) : Bool :=
  s.length == 0

/-- Models `validator.isLength(s, \x7b min: 5 \x7d)`: true iff the string has
length at least 5. -/
def isLength5 (s : String) : Bool :=
  5 ≤ s.length

/-- Splitting a character list at a separator character, the executable model
of `String.prototype.split` on a one-character separator (structural
recursion, so proofs can evaluate it). -/
def splitOnChar (c : Char) : List Char → List (List Char)
  | [] => [[]]
  | x :: xs =>
    let rest := splitOnChar c xs
    if x == c then [] :: rest
    else
      match rest with
      | [] => [[x]]
      | r :: rs => (x :: r) :: rs

/-- Parse a nonempty digit string, the executable model of reading the
numeric user identifier back out of a token. -/
def natOfDigitsAux : List Char → Nat → Option Nat
  | [], acc => some acc
  | c :: cs, acc =>
    if c.isDigit then natOfDigitsAux cs (acc * 10 + (c.toNat - 48)) else none

/-- Parse a string of decimal digits into a `Nat`, `none` when empty or
non-numeric. -/
def natOfDigits (l : List Char) : Option Nat :=
  match l with
  | [] => none
  | _ => natOfDigitsAux l 0

/-- Join character lists back with a dot separator, inverse of splitting at
a dot on its output. -/
def joinDot : List (List Char) → List Char
  | [] => []
  | [l] => l
  | l :: ls => l ++ '.' :: joinDot ls

/-- Models `validator.isEmail(s)` (external library, simplified): exactly one
`@`, a nonempty local part, and a domain made of at least two nonempty
dot-separated labels. The resolvers only branch on its boolean outcome. -/
def isEmail (s : String) : Bool :=
  match splitOnChar '@' s.data with
  | [lp, dom] =>
    decide (0 < lp.length) &&
    (let labels := splitOnChar '.' dom
     decide (2 ≤ labels.length) && labels.all (fun lab => decide (0 < lab.length)))
  | _ => false

/-- Models `bcrypt.hash(password, 12)` (external library): an injective,
non-identity transform of the password. The per-call random salt is
irrelevant to every claim, so the hash is modelled deterministically. -/
def bcryptHash (password : String) : String :=
  "$2a$12$" ++ password

/-- Models `bcrypt.compare(password, hash)`: true iff `hash` is the hash of
`password`. -/
def bcryptCompare (password hash : String) : Bool :=
  hash == bcryptHash password

/-- The hardcoded JWT signing secret from the source. -/
def jwtSecret : String := "somesupersecretsecret"

/-- The payload that `login` signs into a token. -/
structure TokenPayload where
  userId : Nat
  email : String
deriving Repr, DecidableEq

/-- Models `jwt.sign(\x7b userId, email \x7d, secret, \x7b expiresIn: "1h" \x7d)`
(external library): a deterministic encoding under the secret. -/
def jwtSign (p : TokenPayload) (secret : String) : String :=
  secret ++ "." ++ toString p.userId ++ "." ++ p.email

/-- Models `jwt.verify(token, secret)` (external library): returns the payload
when the token is well-formed under the secret, `none` on any structural,
signature or expiry failure (an expired or tampered token is modelled as one
that fails to decode). -/
def jwtVerify (token : String) (secret : String) : Option TokenPayload :=
  match splitOnChar '.' token.data with
  | s :: uid :: em :: ems =>
    if s == secret.data then
      (natOfDigits uid).map (fun n => { userId := n, email := String.mk (joinDot (em :: ems)) })
    else none
  | _ => none

/-! ### Data model (mongoose schemas `models/user.js`, `models/post.js`) -/

/-- A stored user document (`models/user.js`): email, bcrypt password hash,
name, status (defaulting to "I am new!" on creation) and the list of owned
post identifiers. -/
structure UserDoc where
  id : Nat
  email : String
  password : String
  name : String
  status : String
  posts : List Nat
deriving Repr, DecidableEq

/-- A stored post document (`models/post.js`): title, content, image path,
creator identifier and the two mongoose timestamps. -/
structure PostDoc where
  id : Nat
  title : String
  content : String
  imageUrl : String
  creator : Nat
  createdAt : Nat
  updatedAt : Nat
deriving Repr, DecidableEq

/-- The document store: the `users` and `posts` collections. -/
structure Store where
  users : List UserDoc
  posts : List PostDoc
deriving Repr, DecidableEq

/-- Models `User.findOne(\x7b email \x7d)`. -/
def findUserByEmail (s : Store) (email : String) : Option UserDoc :=
  s.users.find? (fun u => u.email == email)

/-- Models `User.findById(id)`. -/
def findUserById (s : Store) (id : Nat) : Option UserDoc :=
  s.users.find? (fun u => u.id == id)

/-- Models `Post.findById(id)`. -/
def findPostById (s : Store) (id : Nat) : Option PostDoc :=
  s.posts.find? (fun p => p.id == id)

/-- Models `user.save()` on an existing document: replace the stored user
with the same identifier. -/
def saveUser (s : Store) (u : UserDoc) : Store :=
  { s with users := s.users.map (fun v => if v.id == u.id then u else v) }

/-- Models `post.save()` on an existing document: replace the stored post
with the same identifier. -/
def savePost (s : Store) (p : PostDoc) : Store :=
  { s with posts := s.posts.map (fun q => if q.id == p.id then p else q) }

/-- Models `Post.findByIdAndRemove(id)`. -/
def removePostById (s : Store) (id : Nat) : Store :=
  { s with posts := s.posts.filter (fun p => p.id != id) }

/-- Models MongoDB ObjectId generation for a new user: a fresh identifier. -/
def freshUserId (s : Store) : Nat :=
  s.users.foldr (fun u acc => max (u.id + 1) acc) 0

/-- Models MongoDB ObjectId generation for a new post: a fresh identifier. -/
def freshPostId (s : Store) : Nat :=
  s.posts.foldr (fun p acc => max (p.id + 1) acc) 0

/-! ### Errors (`app.js` formatError and the error envelope) -/

/-- An error thrown by a resolver: `new Error(message)` with the optional
`code` and `data` fields the resolvers attach. -/
structure GqlError where
  message : String
  code : Option Nat
  data : Option (List String)
deriving Repr, DecidableEq

/-- The envelope `formatError` returns to callers. -/
structure ErrorEnvelope where
  message : String
  status : Nat
  data : Option (List String)
deriving Repr, DecidableEq

/-- Models `formatError` in `app.js`: surface the attached message and data,
defaulting the status to 500 when the resolver attached no code. -/
def formatError (e : GqlError) : ErrorEnvelope :=
  { message := e.message, status := e.code.getD 500, data := e.data }

/-! ### Auth middleware (`middleware/auth.js`) -/

/-- The authentication state the middleware leaves on the request:
`isAuth` plus the token user identifier (0 when unauthenticated, where the
source leaves `req.userId` unset — the resolvers read it only after checking
`isAuth`). -/
structure Req where
  isAuth : Bool
  userId : Nat
deriving Repr, DecidableEq

/-- The unauthenticated request state. -/
def unauthReq : Req := { isAuth := false, userId := 0 }

/-- Models the middleware in `middleware/auth.js`: absent header, missing
bearer segment, or a token failing `jwt.verify` all yield the unauthenticated
state and let the call proceed; a valid token sets `isAuth` and `userId`.
The function is total: the guard never raises an error. -/
def authMiddleware (authHeader : Option String) : Req :=
  match authHeader with
  | none => unauthReq
  | some header =>
    match (splitOnChar ' ' header.data).get? 1 with
    | none => unauthReq
    | some token =>
      match jwtVerify (String.mk token) jwtSecret with
      | none => unauthReq
      | some decodedToken => { isAuth := true, userId := decodedToken.userId }

/-! ### Output shapes (`graphql/schema.js` types, resolver return values) -/

/-- Models `Date.prototype.toISOString()`: an injective fixed-format
rendering of the numeric timestamp. -/
def isoString (t : Nat) : String :=
  "1970-01-01T00:00:00." ++ toString t ++ "Z"

/-- The user object a resolver returns:
`\x7b ...user._doc, _id: user._id.toString() \x7d`. The `_doc` spread carries
every stored field, the password hash included (the schema `User` type
declares `password: String`). -/
structure UserResponse where
  id : String
  email : String
  password : String
  name : String
  status : String
  posts : List Nat
deriving Repr, DecidableEq

/-- Render a stored user document into the resolver return shape. -/
def renderUser (u : UserDoc) : UserResponse :=
  { id := toString u.id, email := u.email, password := u.password,
    name := u.name, status := u.status, posts := u.posts }

/-- The post object a resolver returns: the `_doc` spread with `_id`
stringified and both timestamps rendered by `toISOString`. The creator
field stays the identifier here; `populate` resolution only affects which
user fields are reachable, not any claim. -/
structure PostResponse where
  id : String
  title : String
  content : String
  imageUrl : String
  creator : Nat
  createdAt : String
  updatedAt : String
deriving Repr, DecidableEq

/-- Render a stored post document into the resolver return shape. -/
def renderPost (p : PostDoc) : PostResponse :=
  { id := toString p.id, title := p.title, content := p.content,
    imageUrl := p.imageUrl, creator := p.creator,
    createdAt := isoString p.createdAt, updatedAt := isoString p.updatedAt }

/-- The `AuthData` shape `login` returns. -/
structure AuthData where
  token : String
  userId : String
deriving Repr, DecidableEq

/-- The `\x7b posts, totalPosts \x7d` shape the `posts` query returns. -/
structure PostData where
  posts : List PostResponse
  totalPosts : Nat
deriving Repr, DecidableEq

/-- The `Error("Not authenticated!")` with `code = 401` every protected
resolver throws first. -/
def notAuthenticatedErr : GqlError :=
  { message := "Not authenticated!", code := some 401, data := none }

/-- The `Error("No post found!")` with `code = 404`. -/
def noPostErr : GqlError :=
  { message := "No post found!", code := some 404, data := none }

/-- The `Error("Not authorized!")` with `code = 403`. -/
def notAuthorizedErr : GqlError :=
  { message := "Not authorized!", code := some 403, data := none }

/-! ### Resolvers (`graphql/resolvers.js`) -/

/-- The `userInput` argument of `createUser`. -/
structure UserInput where
  email : String
  name : String
  password : String
deriving Repr, DecidableEq

/-- The `postInput` argument of `createPost` / `updatePost`. -/
structure PostInput where
  title : String
  content : String
  imageUrl : String
deriving Repr, DecidableEq

/-- Resolver `createUser`: collect validation errors (invalid email; empty or
short password), throw 422 with the full list if any; then the
already-registered check (`Error` with no code); then hash, build the user
with the schema status default, save, and return the `_doc` spread. -/
def createUser (userInput : UserInput) (s : Store) :
    Except GqlError (UserResponse × Store) :=
  let errors :=
    (if !isEmail userInput.email then ["E-Mail is invalid."] else []) ++
    (if isEmptyStr userInput.password || !isLength5 userInput.password then
      ["Password too short!"] else [])
  if errors.length > 0 then
    .error { message := "Invalid input.", code := some 422, data := some errors }
  else
    match findUserByEmail s userInput.email with
    | some _ => .error { message := "User exists already!", code := none, data := none }
    | none =>
      let hashedPw := bcryptHash userInput.password
      let user : UserDoc :=
        { id := freshUserId s, email := userInput.email, password := hashedPw,
          name := userInput.name, status := "I am new!", posts := [] }
      .ok (renderUser user, { s with users := s.users ++ [user] })

/-- Resolver `login`: unknown email throws 401 "User not found."; a failing
`bcrypt.compare` throws 401 "Password is incorrect."; otherwise sign a token
over `\x7b userId, email \x7d` and return it with the user id. -/
def login (email password : String) (s : Store) : Except GqlError AuthData :=
  match findUserByEmail s email with
  | none => .error { message := "User not found.", code := some 401, data := none }
  | some user =>
    if !bcryptCompare password user.password then
      .error { message := "Password is incorrect.", code := some 401, data := none }
    else
      .ok { token := jwtSign { userId := user.id, email := user.email } jwtSecret,
            userId := toString user.id }

/-- Resolver `createPost`: auth check (401), validation of title and content
(422 with the collected list), `User.findById` (401 "Invalid user." when
missing), insert the post with server timestamps, push its reference onto the
creator and save the user. `now` models the mongoose timestamp clock. -/
def createPost (postInput : PostInput) (req : Req) (now : Nat) (s : Store) :
    Except GqlError (PostResponse × Store) :=
  if !req.isAuth then .error notAuthenticatedErr
  else
    let errors :=
      (if isEmptyStr postInput.title || !isLength5 postInput.title then
        ["Title is invalid."] else []) ++
      (if isEmptyStr postInput.content || !isLength5 postInput.content then
        ["Content is invalid."] else [])
    if errors.length > 0 then
      .error { message := "Invalid input.", code := some 422, data := some errors }
    else
      match findUserById s req.userId with
      | none => .error { message := "Invalid user.", code := some 401, data := none }
      | some user =>
        let post : PostDoc :=
          { id := freshPostId s, title := postInput.title, content := postInput.content,
            imageUrl := postInput.imageUrl, creator := user.id,
            createdAt := now, updatedAt := now }
        let s1 : Store := { s with posts := s.posts ++ [post] }
        let user1 := { user with posts := user.posts ++ [post.id] }
        .ok (renderPost post, saveUser s1 user1)

/-- The descending-creation-time order `.sort(\x7b createdAt: -1 \x7d)` uses. -/
def createdDesc (a b : PostDoc) : Prop :=
  b.createdAt ≤ a.createdAt

instance : DecidableRel createdDesc :=
  fun a b => Nat.decLe b.createdAt a.createdAt

instance : IsTotal PostDoc createdDesc :=
  ⟨fun a b => Nat.le_total b.createdAt a.createdAt⟩

instance : IsTrans PostDoc createdDesc :=
  ⟨fun _ _ _ hab hbc => Nat.le_trans hbc hab⟩

/-- Models the store sort `Post.find().sort(\x7b createdAt: -1 \x7d)`: a stable
sort by creation time, newest first. -/
def sortByCreatedDesc (l : List PostDoc) : List PostDoc :=
  l.insertionSort createdDesc

/-- Resolver `posts`: auth check, default the page to 1 when absent or zero
(JS falsy), count the whole collection, then sort descending by creation
time, skip `(page-1)*2`, take 2, and render. -/
def postsResolver (page? : Option Nat) (req : Req) (s : Store) :
    Except GqlError PostData :=
  if !req.isAuth then .error notAuthenticatedErr
  else
    let page := match page? with
      | none => 1
      | some n => if n == 0 then 1 else n
    let perPage := 2
    let totalPosts := s.posts.length
    let posts := ((sortByCreatedDesc s.posts).drop ((page - 1) * perPage)).take perPage
    .ok { posts := posts.map renderPost, totalPosts := totalPosts }

/-- Resolver `post`: auth check, load by id (404 when missing), render. -/
def postResolver (id : Nat) (req : Req) (s : Store) :
    Except GqlError PostResponse :=
  if !req.isAuth then .error notAuthenticatedErr
  else
    match findPostById s id with
    | none => .error noPostErr
    | some post => .ok (renderPost post)

/-- Resolver `updatePost`, in source order: auth check (401), load (404),
ownership check against the populated creator id (403), validation of the
new title and content (422), then mutate: title and content always, the
image path only when the input is not the literal string "undefined", and
save with a refreshed `updatedAt`. -/
def updatePost (id : Nat) (postInput : PostInput) (req : Req) (now : Nat)
    (s : Store) : Except GqlError (PostResponse × Store) :=
  if !req.isAuth then .error notAuthenticatedErr
  else
    match findPostById s id with
    | none => .error noPostErr
    | some post =>
      if post.creator != req.userId then .error notAuthorizedErr
      else
        let errors :=
          (if isEmptyStr postInput.title || !isLength5 postInput.title then
            ["Title is invalid."] else []) ++
          (if isEmptyStr postInput.content || !isLength5 postInput.content then
            ["Content is invalid."] else [])
        if errors.length > 0 then
          .error { message := "Invalid input.", code := some 422, data := some errors }
        else
          let updated : PostDoc :=
            { post with
              title := postInput.title,
              content := postInput.content,
              imageUrl := if postInput.imageUrl != "undefined" then postInput.imageUrl
                          else post.imageUrl,
              updatedAt := now }
          .ok (renderPost updated, savePost s updated)

/-- The side effects `deletePost` and the upload endpoint perform outside the
returned value: the best-effort image deletion, the post removal, and the
persisting of the creator with the reference pulled. -/
inductive Effect where
  | clearImage : String → Effect
  | removePost : Nat → Effect
  | saveUser : Nat → Effect
deriving Repr, DecidableEq

/-- Models `clearImage` in `util/file.js` acting on the image file store
(a list of stored paths): `fs.unlink` removes the file when present; when it
is absent the error is only logged, never thrown, so the file store is
returned unchanged either way the call continues. -/
def clearImage (filePath : String) (fs : List String) : List String :=
  fs.filter (fun p => p != filePath)

/-- Resolver `deletePost`: auth check (401), load without populate (404),
ownership check against the raw creator id (403); then, in order:
`clearImage(post.imageUrl)`, `Post.findByIdAndRemove(id)`, and
`user.posts.pull(id); user.save()`. Returns the success flag, the mutated
store, the mutated file store and the ordered effect trace. -/
def deletePost (id : Nat) (req : Req) (s : Store) (fs : List String) :
    Except GqlError (Bool × Store × List String × List Effect) :=
  if !req.isAuth then .error notAuthenticatedErr
  else
    match findPostById s id with
    | none => .error noPostErr
    | some post =>
      if post.creator != req.userId then .error notAuthorizedErr
      else
        let fs1 := clearImage post.imageUrl fs
        let s1 := removePostById s id
        match findUserById s1 req.userId with
        | none =>
          .error { message := "Cannot read properties of null", code := none, data := none }
        | some user =>
          let user1 := { user with posts := user.posts.filter (fun p => p != id) }
          .ok (true, saveUser s1 user1, fs1,
               [Effect.clearImage post.imageUrl, Effect.removePost id,
                Effect.saveUser user1.id])

/-- Resolver `user`: auth check (401), load self by the token user id
(404 "No user found!"), return the `_doc` spread — hash included. -/
def userResolver (req : Req) (s : Store) : Except GqlError UserResponse :=
  if !req.isAuth then .error notAuthenticatedErr
  else
    match findUserById s req.userId with
    | none => .error { message := "No user found!", code := some 404, data := none }
    | some user => .ok (renderUser user)

/-- Resolver `updateStatus`: auth check (401), load self (404), set the
status, save, return the `_doc` spread. -/
def updateStatus (status : String) (req : Req) (s : Store) :
    Except GqlError (UserResponse × Store) :=
  if !req.isAuth then .error notAuthenticatedErr
  else
    match findUserById s req.userId with
    | none => .error { message := "No user found!", code := some 404, data := none }
    | some user =>
      let user1 := { user with status := status }
      .ok (renderUser user1, saveUser s user1)

/-! ### Upload endpoint (`app.js`, multer and `PUT /post-image`) -/

/-- A file arriving at the multer middleware. -/
structure UploadedFile where
  mimetype : String
  path : String
deriving Repr, DecidableEq

/-- The `fileFilter` in `app.js`: accept only png, jpg and jpeg MIME types. -/
def fileFilter (file : UploadedFile) : Bool :=
  file.mimetype == "image/png" ||
  file.mimetype == "image/jpg" ||
  file.mimetype == "image/jpeg"

/-- Models `multer(...).single("image")`: when a file was sent and the filter
accepts it, the file is written to the image store and `req.file` is set;
otherwise nothing is stored and `req.file` stays unset. -/
def multerProcess (sent : Option UploadedFile) (fs : List String) :
    Option UploadedFile × List String :=
  match sent with
  | none => (none, fs)
  | some f => if fileFilter f then (some f, fs ++ [f.path]) else (none, fs)

/-- The JSON body the upload endpoint responds with. -/
structure UploadResponse where
  status : Nat
  message : String
  filePath : Option String
deriving Repr, DecidableEq

/-- The `PUT /post-image` handler: throw when unauthenticated; respond
200 "No file provided!" when no file was accepted; otherwise delete the old
image when an `oldPath` was supplied and respond 201 with the stored path.
Returns the response, the resulting file store and the effect trace. -/
def putPostImage (req : Req) (sent : Option UploadedFile) (oldPath : Option String)
    (fs : List String) : Except GqlError (UploadResponse × List String × List Effect) :=
  let (file?, fs1) := multerProcess sent fs
  if !req.isAuth then
    .error { message := "Not authenticated!", code := none, data := none }
  else
    match file? with
    | none => .ok ({ status := 200, message := "No file provided!", filePath := none }, fs1, [])
    | some file =>
      match oldPath with
      | some op =>
        .ok ({ status := 201, message := "File stored.", filePath := some file.path },
             clearImage op fs1, [Effect.clearImage op])
      | none =>
        .ok ({ status := 201, message := "File stored.", filePath := some file.path },
             fs1, [])

/-! ### Concrete fixtures used by witnesses and counterexamples -/

/-- A registered user: the exact document `createUser` builds for the input
email "alice@example.com", name "Alice", password "hello" on an empty store. -/
def demoUser : UserDoc :=
  { id := 0, email := "alice@example.com", password := bcryptHash "hello",
    name := "Alice", status := "I am new!", posts := [] }

/-- The empty store. -/
def emptyStore : Store := { users := [], posts := [] }

/-- A store holding exactly `demoUser`. -/
def demoStore : Store := { users := [demoUser], posts := [] }

/-- The request state of `demoUser` after a valid token. -/
def authedReq : Req := { isAuth := true, userId := 0 }

/-! ### Theorems -/

/-- C1. The claim reads: for every successful call to createUser and to the
user query, the returned user object does not contain the stored password
hash. The code refutes it: both resolvers return the `_doc` spread, whose
`password` field is exactly the stored bcrypt hash, and the schema `User`
type exposes `password`. Evaluated at the failing input: registering
"alice@example.com" with password "hello" on an empty store returns a user
object whose password field equals the stored hash, and the `user` query on
the resulting store returns the same hash again. -/
theorem createUser_and_user_return_password_hash :
    createUser { email := "alice@example.com", name := "Alice", password := "hello" }
        emptyStore = .ok (renderUser demoUser, demoStore) ∧
    (renderUser demoUser).password = bcryptHash "hello" ∧
    findUserByEmail demoStore "alice@example.com" = some demoUser ∧
    (renderUser demoUser).password = demoUser.password ∧
    userResolver authedReq demoStore = .ok (renderUser demoUser) := by
  exact ⟨rfl, rfl, rfl, rfl, rfl⟩

/-- C2 counterexample. The claim reads: the two login failure responses do
not reveal which condition occurred. On the concrete store holding only
`demoUser`, the unknown-email run and the wrong-password run both fail with
status 401, yet the surfaced envelopes differ ("User not found." against
"Password is incorrect."), so the observable error is not the same. -/
theorem login_error_reveals_condition :
    login "unknown@example.com" "hello" demoStore =
      .error { message := "User not found.", code := some 401, data := none } ∧
    login "alice@example.com" "wrong" demoStore =
      .error { message := "Password is incorrect.", code := some 401, data := none } ∧
    formatError { message := "User not found.", code := some 401, data := none } ≠
      formatError { message := "Password is incorrect.", code := some 401, data := none } := by
  refine ⟨rfl, rfl, ?_⟩
  decide

/-- C2 amended: a login with an unknown email and a login with a known email
but wrong password both fail with status 401, but with distinct fixed
messages — "User not found." for the former, "Password is incorrect." for
the latter — so the failure response does reveal which condition occurred. -/
theorem login_failures_both_401 (s : Store) (email password : String) :
    (findUserByEmail s email = none →
      login email password s =
        .error { message := "User not found.", code := some 401, data := none }) ∧
    (∀ u, findUserByEmail s email = some u → bcryptCompare password u.password = false →
      login email password s =
        .error { message := "Password is incorrect.", code := some 401, data := none }) := by
  constructor
  · intro h
    unfold login
    rw [h]
  · intro u h hc
    unfold login
    rw [h]
    simp [hc]

/-- Witness for C2: both failure branches realized on the demo store. -/
theorem login_failures_both_401_witness :
    login "unknown@example.com" "hello" demoStore =
      .error { message := "User not found.", code := some 401, data := none } ∧
    login "alice@example.com" "wrong" demoStore =
      .error { message := "Password is incorrect.", code := some 401, data := none } :=
  ⟨(login_failures_both_401 demoStore "unknown@example.com" "hello").1 (by decide),
   (login_failures_both_401 demoStore "alice@example.com" "wrong").2 demoUser
     (by decide) (by decide)⟩

/-- C3: a createUser input with a malformed email and an empty-or-short
password fails with a single 422 error whose data lists both violation
messages, and — since the same error is produced for every store `s` — the
failure is raised before any store read or write. -/
theorem createUser_validation_aggregates (input : UserInput) (s : Store)
    (hEmail : isEmail input.email = false)
    (hPw : (isEmptyStr input.password || !isLength5 input.password) = true) :
    createUser input s =
      .error { message := "Invalid input.", code := some 422,
               data := some ["E-Mail is invalid.", "Password too short!"] } := by
  unfold createUser
  simp [hEmail, hPw]

/-- Witness for C3: email "bademail" with password "abc" violates both rules
and is rejected with both messages on the demo store. -/
theorem createUser_validation_aggregates_witness :
    isEmail "bademail" = false ∧
    (isEmptyStr "abc" || !isLength5 "abc") = true ∧
    createUser { email := "bademail", name := "X", password := "abc" } demoStore =
      .error { message := "Invalid input.", code := some 422,
               data := some ["E-Mail is invalid.", "Password too short!"] } :=
  ⟨by decide, by decide,
   createUser_validation_aggregates
     { email := "bademail", name := "X", password := "abc" } demoStore
     (by decide) (by decide)⟩

/-- C8: a createUser call with a valid email and password whose email is
already registered fails with the bare "User exists already!" error carrying
no code and no data, and `formatError` therefore surfaces it with the
default status 500. -/
theorem createUser_conflict_defaults_500 (input : UserInput) (s : Store) (u : UserDoc)
    (hEmail : isEmail input.email = true)
    (hPw1 : isEmptyStr input.password = false)
    (hPw2 : isLength5 input.password = true)
    (hExists : findUserByEmail s input.email = some u) :
    createUser input s =
      .error { message := "User exists already!", code := none, data := none } ∧
    formatError { message := "User exists already!", code := none, data := none } =
      { message := "User exists already!", status := 500, data := none } := by
  constructor
  · unfold createUser
    simp [hEmail, hPw1, hPw2, hExists]
  · rfl

/-- Witness for C8: re-registering the demo email is rejected without a code
and surfaces as status 500. -/
theorem createUser_conflict_defaults_500_witness :
    createUser { email := "alice@example.com", name := "Alice2", password := "hello" }
        demoStore =
      .error { message := "User exists already!", code := none, data := none } ∧
    formatError { message := "User exists already!", code := none, data := none } =
      { message := "User exists already!", status := 500, data := none } :=
  createUser_conflict_defaults_500
    { email := "alice@example.com", name := "Alice2", password := "hello" }
    demoStore demoUser (by decide) (by decide) (by decide) (by decide)

/-! ### Further fixtures: a stored post and its owner -/

/-- The owner of the demo post: `demoUser` with the post reference added. -/
def demoOwner : UserDoc :=
  { id := 0, email := "alice@example.com", password := bcryptHash "hello",
    name := "Alice", status := "I am new!", posts := [10] }

/-- A stored post created by `demoOwner`. -/
def demoPost : PostDoc :=
  { id := 10, title := "Hello world", content := "Some content",
    imageUrl := "images/a.png", creator := 0, createdAt := 5, updatedAt := 5 }

/-- A store holding `demoOwner` and `demoPost`. -/
def postStore : Store := { users := [demoOwner], posts := [demoPost] }

/-! ### Store lemmas -/

/-- Replacing the document that carries a given identifier makes a lookup of
that identifier return the replacement: the list-level content of
`saveUser` / `savePost` followed by a find. -/
theorem find?_map_replace {α : Type} (idf : α → Nat) :
    ∀ (l : List α) (i : Nat) (p q : α),
      l.find? (fun r => idf r == i) = some p → idf q = idf p →
      (l.map (fun r => if idf r == idf q then q else r)).find? (fun r => idf r == i) =
        some q := by
  intro l
  induction l with
  | nil =>
    intro i p q h _
    simp at h
  | cons x xs ih =>
    intro i p q h hq
    by_cases hx : idf x = i
    · have hpx : x = p := by
        simpa [hx] using h
      have hqx : idf q = idf x := by
        rw [hq, ← hpx]
      simp [hqx, hx]
    · simp [hx] at h
      have hpi : idf p = i := by
        simpa using List.find?_some h
      have hxq : idf x ≠ idf q := by
        rw [hq, hpi]
        exact hx
      simp [hx, hxq]
      simpa using ih i p q h hq

/-- A post lookup after `savePost` of a document with the found identifier
returns the saved document. -/
theorem findPostById_savePost (s : Store) (i : Nat) (p q : PostDoc)
    (h : findPostById s i = some p) (hq : q.id = p.id) :
    findPostById (savePost s q) i = some q :=
  find?_map_replace PostDoc.id s.posts i p q h hq

/-- A user lookup after `saveUser` of a document with the found identifier
returns the saved document. -/
theorem findUserById_saveUser (s : Store) (i : Nat) (u v : UserDoc)
    (h : findUserById s i = some u) (hv : v.id = u.id) :
    findUserById (saveUser s v) i = some v :=
  find?_map_replace UserDoc.id s.users i u v h hv

/-- Looking a post up after filtering its identifier out finds nothing. -/
theorem find?_filter_ne_eq_none (l : List PostDoc) (i : Nat) :
    (l.filter (fun p => p.id != i)).find? (fun p => p.id == i) = none := by
  rw [List.find?_eq_none]
  intro x hx
  have hne := (List.mem_filter.mp hx).2
  simpa using hne

/-- An identifier is never a member of the list it was pulled from. -/
theorem not_mem_filter_ne (l : List Nat) (i : Nat) :
    i ∉ l.filter (fun p => p != i) := by
  intro h
  have := (List.mem_filter.mp h).2
  simp at this

/-! ### Theorems for the remaining claims -/

/-- C5: for every authenticated updatePost or deletePost call, a missing
target fails with the 404 "No post found!" error, and an existing target
whose creator differs from the caller fails with the 403 "Not authorized!"
error — for every `postInput`, the invalid ones included, so the ownership
check precedes validation and 403 is returned rather than 422. -/
theorem notFound_forbidden_precedence (id : Nat) (input : PostInput) (req : Req)
    (now : Nat) (s : Store) (fs : List String) (hAuth : req.isAuth = true) :
    (findPostById s id = none →
       updatePost id input req now s = .error noPostErr ∧
       deletePost id req s fs = .error noPostErr) ∧
    (∀ p, findPostById s id = some p → p.creator ≠ req.userId →
       updatePost id input req now s = .error notAuthorizedErr ∧
       deletePost id req s fs = .error notAuthorizedErr) := by
  constructor
  · intro h
    constructor
    · unfold updatePost
      simp [hAuth, h]
    · unfold deletePost
      simp [hAuth, h]
  · intro p h hne
    have hb : (p.creator != req.userId) = true := by
      simp [hne]
    constructor
    · unfold updatePost
      simp [hAuth, h, hb]
    · unfold deletePost
      simp [hAuth, h, hb]

/-- Witness for C5: a non-owner caller with an invalid input gets 403 on the
existing demo post, and both operations give 404 on a missing identifier. -/
theorem notFound_forbidden_precedence_witness :
    (updatePost 99 { title := "ab", content := "x", imageUrl := "undefined" }
       { isAuth := true, userId := 1 } 9 postStore = .error noPostErr ∧
     deletePost 99 { isAuth := true, userId := 1 } postStore [] = .error noPostErr) ∧
    (updatePost 10 { title := "ab", content := "x", imageUrl := "undefined" }
       { isAuth := true, userId := 1 } 9 postStore = .error notAuthorizedErr ∧
     deletePost 10 { isAuth := true, userId := 1 } postStore [] = .error notAuthorizedErr) :=
  ⟨(notFound_forbidden_precedence 99 { title := "ab", content := "x", imageUrl := "undefined" }
      { isAuth := true, userId := 1 } 9 postStore [] rfl).1 (by decide),
   (notFound_forbidden_precedence 10 { title := "ab", content := "x", imageUrl := "undefined" }
      { isAuth := true, userId := 1 } 9 postStore [] rfl).2 demoPost (by decide) (by decide)⟩

/-- C6: a successful updatePost always replaces title and content with the
supplied values, replaces the image reference only when the supplied
imageUrl is not the sentinel string "undefined", keeps the stored image
when the sentinel is supplied, and leaves creator and creation time
untouched. -/
theorem updatePost_replaces_fields (id : Nat) (input : PostInput) (req : Req)
    (now : Nat) (s : Store) (post : PostDoc)
    (hAuth : req.isAuth = true)
    (hFind : findPostById s id = some post)
    (hOwn : post.creator = req.userId)
    (hT : (isEmptyStr input.title || !isLength5 input.title) = false)
    (hC : (isEmptyStr input.content || !isLength5 input.content) = false) :
    ∃ q s1, updatePost id input req now s = .ok (renderPost q, s1) ∧
      findPostById s1 id = some q ∧
      q.title = input.title ∧
      q.content = input.content ∧
      (input.imageUrl = "undefined" → q.imageUrl = post.imageUrl) ∧
      (input.imageUrl ≠ "undefined" → q.imageUrl = input.imageUrl) ∧
      q.creator = post.creator ∧
      q.createdAt = post.createdAt := by
  have hOwnB : (post.creator != req.userId) = false := by
    simp [hOwn]
  have hmain : updatePost id input req now s =
      .ok (renderPost
             { post with
               title := input.title,
               content := input.content,
               imageUrl := if input.imageUrl != "undefined" then input.imageUrl
                           else post.imageUrl,
               updatedAt := now },
           savePost s
             { post with
               title := input.title,
               content := input.content,
               imageUrl := if input.imageUrl != "undefined" then input.imageUrl
                           else post.imageUrl,
               updatedAt := now }) := by
    unfold updatePost
    simp [hAuth, hFind, hOwnB, hT, hC]
  refine ⟨_, _, hmain, ?_, rfl, rfl, ?_, ?_, rfl, rfl⟩
  · exact findPostById_savePost s id post _ hFind rfl
  · intro h
    simp [h]
  · intro h
    simp [h]

/-- Witness for C6: the owner updates the demo post supplying the sentinel
image value; title and content change, the image stays. -/
theorem updatePost_replaces_fields_witness :
    ∃ q s1, updatePost 10
        { title := "New title", content := "New content", imageUrl := "undefined" }
        authedReq 9 postStore = .ok (renderPost q, s1) ∧
      findPostById s1 10 = some q ∧
      q.title = "New title" ∧
      q.content = "New content" ∧
      (("undefined" : String) = "undefined" → q.imageUrl = demoPost.imageUrl) ∧
      (("undefined" : String) ≠ "undefined" → q.imageUrl = "undefined") ∧
      q.creator = demoPost.creator ∧
      q.createdAt = demoPost.createdAt :=
  updatePost_replaces_fields 10
    { title := "New title", content := "New content", imageUrl := "undefined" }
    authedReq 9 postStore demoPost rfl (by decide) (by decide) (by decide) (by decide)

/-- C7: an absent Authorization header, a header without a bearer segment,
and a bearer token failing verification all yield the unauthenticated
request state from the (total, never-throwing) guard; and each of the seven
operations other than login and createUser then fails with the 401
"Not authenticated!" error — for every store and every argument, so the
rejection happens before any validation or store access. -/
theorem guard_unauth_and_ops_401 :
    (authMiddleware none = unauthReq) ∧
    (∀ header, ((splitOnChar ' ' header.data).get? 1 = none ∨
        (∃ tok, (splitOnChar ' ' header.data).get? 1 = some tok ∧
           jwtVerify (String.mk tok) jwtSecret = none)) →
      authMiddleware (some header) = unauthReq) ∧
    (∀ (req : Req), req.isAuth = false →
      ∀ (s : Store) (input : PostInput) (pid now : Nat) (page? : Option Nat)
        (st : String) (fs : List String),
        createPost input req now s = .error notAuthenticatedErr ∧
        postsResolver page? req s = .error notAuthenticatedErr ∧
        postResolver pid req s = .error notAuthenticatedErr ∧
        updatePost pid input req now s = .error notAuthenticatedErr ∧
        deletePost pid req s fs = .error notAuthenticatedErr ∧
        userResolver req s = .error notAuthenticatedErr ∧
        updateStatus st req s = .error notAuthenticatedErr) := by
  refine ⟨rfl, ?_, ?_⟩
  · intro header h
    rcases h with h | ⟨tok, h1, h2⟩
    · rw [List.get?_eq_getElem?] at h
      simp [authMiddleware, h]
    · rw [List.get?_eq_getElem?] at h1
      simp [authMiddleware, h1, h2]
  · intro req hreq s input pid now page? st fs
    unfold createPost postsResolver postResolver updatePost deletePost
      userResolver updateStatus
    simp [hreq]

/-- Witness for C7: a garbage bearer token is left unauthenticated by the
guard and the posts query then rejects it with 401. -/
theorem guard_unauth_and_ops_401_witness :
    authMiddleware (some "Bearer garbage") = unauthReq ∧
    postsResolver (some 1) unauthReq demoStore = .error notAuthenticatedErr :=
  ⟨guard_unauth_and_ops_401.2.1 "Bearer garbage"
     (Or.inr ⟨"garbage".data, rfl, rfl⟩),
   (guard_unauth_and_ops_401.2.2 unauthReq rfl demoStore
      { title := "", content := "", imageUrl := "" } 0 0 (some 1) "" []).2.1⟩

/-- C9: a successful deletePost by the creator performs exactly three side
effects, in order: the best-effort image deletion, the post removal, and the
save of the creator with the reference pulled. The resulting store has the
post gone from the posts collection and its identifier gone from the
creator's post set. The image file store `fs` is arbitrary — in particular
one missing the image path, where the unlink fails — and the rest of the
call is unaffected by it. -/
theorem deletePost_three_effects (id : Nat) (req : Req) (s : Store)
    (fs : List String) (post : PostDoc) (user : UserDoc)
    (hAuth : req.isAuth = true)
    (hFind : findPostById s id = some post)
    (hOwn : post.creator = req.userId)
    (hUser : findUserById s req.userId = some user) :
    ∃ s2 u1, deletePost id req s fs =
        .ok (true, s2, clearImage post.imageUrl fs,
             [Effect.clearImage post.imageUrl, Effect.removePost id,
              Effect.saveUser user.id]) ∧
      s2.posts = s.posts.filter (fun p => p.id != id) ∧
      findPostById s2 id = none ∧
      findUserById s2 req.userId = some u1 ∧
      u1.posts = user.posts.filter (fun p => p != id) ∧
      id ∉ u1.posts := by
  have hOwnB : (post.creator != req.userId) = false := by
    simp [hOwn]
  have hUser1 : findUserById (removePostById s id) req.userId = some user := hUser
  refine ⟨saveUser (removePostById s id)
            { user with posts := user.posts.filter (fun p => p != id) },
          { user with posts := user.posts.filter (fun p => p != id) },
          ?_, rfl, ?_, ?_, rfl, not_mem_filter_ne user.posts id⟩
  · unfold deletePost
    simp [hAuth, hFind, hOwnB, hUser1]
  · exact find?_filter_ne_eq_none s.posts id
  · exact findUserById_saveUser (removePostById s id) req.userId user _ hUser1 rfl

/-- Witness for C9: the owner deletes the demo post; the three effects occur
in order, the post is gone and the reference is pulled, with the image file
present in the file store. -/
theorem deletePost_three_effects_witness :
    ∃ s2 u1, deletePost 10 authedReq postStore ["images/a.png"] =
        .ok (true, s2, clearImage demoPost.imageUrl ["images/a.png"],
             [Effect.clearImage demoPost.imageUrl, Effect.removePost 10,
              Effect.saveUser demoOwner.id]) ∧
      s2.posts = postStore.posts.filter (fun p => p.id != 10) ∧
      findPostById s2 10 = none ∧
      findUserById s2 authedReq.userId = some u1 ∧
      u1.posts = demoOwner.posts.filter (fun p => p != 10) ∧
      10 ∉ u1.posts :=
  deletePost_three_effects 10 authedReq postStore ["images/a.png"] demoPost
    demoOwner rfl (by decide) (by decide) (by decide)

/-- C10: an authenticated upload call in which no file was accepted — none
sent, or the MIME type filtered out by `fileFilter` — responds with status
200 and "No file provided!", leaves the image file store untouched (nothing
stored, the old image not deleted even when `oldPath` is supplied) and
performs no effect. -/
theorem putPostImage_no_file (req : Req) (sent : Option UploadedFile)
    (oldPath : Option String) (fs : List String)
    (hAuth : req.isAuth = true)
    (hNo : sent = none ∨ ∃ f, sent = some f ∧ fileFilter f = false) :
    putPostImage req sent oldPath fs =
      .ok ({ status := 200, message := "No file provided!", filePath := none },
           fs, []) := by
  rcases hNo with h | ⟨f, h, hf⟩
  · subst h
    unfold putPostImage multerProcess
    simp [hAuth]
  · subst h
    unfold putPostImage multerProcess
    simp [hAuth, hf]

/-- Witness for C10: a gif upload is filtered out; with an oldPath supplied
and the old image present in the file store, the call answers 200
"No file provided!" and the file store is unchanged. -/
theorem putPostImage_no_file_witness :
    putPostImage authedReq (some { mimetype := "image/gif", path := "images/x.gif" })
        (some "images/old.png") ["images/old.png"] =
      .ok ({ status := 200, message := "No file provided!", filePath := none },
           ["images/old.png"], []) :=
  putPostImage_no_file authedReq
    (some { mimetype := "image/gif", path := "images/x.gif" })
    (some "images/old.png") ["images/old.png"] rfl
    (Or.inr ⟨{ mimetype := "image/gif", path := "images/x.gif" }, rfl, by decide⟩)

/-- Three stored posts with distinct creation times, for the pagination
witness. -/
def pagedStore : Store :=
  { users := [demoOwner],
    posts :=
      [{ id := 1, title := "First post!", content := "Content one.",
         imageUrl := "images/1.png", creator := 0, createdAt := 1, updatedAt := 1 },
       { id := 2, title := "Second post", content := "Content two.",
         imageUrl := "images/2.png", creator := 0, createdAt := 2, updatedAt := 2 },
       { id := 3, title := "Third post!", content := "Content three.",
         imageUrl := "images/3.png", creator := 0, createdAt := 3, updatedAt := 3 }] }

/-- C4: for an authenticated caller, the posts query treats an absent and a
zero page argument as page 1; for every page n it succeeds (no bounds
error), returning the stored posts sorted by creation time descending — the
sorted list is a permutation of the collection and the returned slice is
pairwise descending — skipping `(n-1)*2` and taking at most 2, with
totalPosts always the full unfiltered collection count; and for n beyond
the last page the returned posts list is empty. -/
theorem posts_pagination (req : Req) (s : Store) (hAuth : req.isAuth = true) :
    postsResolver none req s = postsResolver (some 1) req s ∧
    postsResolver (some 0) req s = postsResolver (some 1) req s ∧
    (sortByCreatedDesc s.posts).Perm s.posts ∧
    ∀ n, postsResolver (some n) req s =
        .ok { posts := (((sortByCreatedDesc s.posts).drop ((n - 1) * 2)).take 2).map
                renderPost,
              totalPosts := s.posts.length } ∧
      List.Sorted createdDesc (((sortByCreatedDesc s.posts).drop ((n - 1) * 2)).take 2) ∧
      (s.posts.length ≤ (n - 1) * 2 →
        (((sortByCreatedDesc s.posts).drop ((n - 1) * 2)).take 2).map renderPost = []) := by
  refine ⟨?_, ?_, List.perm_insertionSort createdDesc s.posts, ?_⟩
  · simp [postsResolver, hAuth]
  · simp [postsResolver, hAuth]
  · intro n
    refine ⟨?_, ?_, ?_⟩
    · cases n with
      | zero => simp [postsResolver, hAuth]
      | succ m => simp [postsResolver, hAuth]
    · exact List.Pairwise.sublist
        ((List.take_sublist 2 _).trans (List.drop_sublist ((n - 1) * 2) _))
        (List.sorted_insertionSort createdDesc s.posts)
    · intro hlen
      have hlen2 : (sortByCreatedDesc s.posts).length ≤ (n - 1) * 2 := by
        rw [sortByCreatedDesc,
          (List.perm_insertionSort createdDesc s.posts).length_eq]
        exact hlen
      rw [List.drop_eq_nil_of_le hlen2]
      simp

/-- Witness for C4: on three stored posts, the page default fires and page 4
is past the end, returning the empty slice with totalPosts 3. -/
theorem posts_pagination_witness :
    authedReq.isAuth = true ∧
    postsResolver none authedReq pagedStore = postsResolver (some 1) authedReq pagedStore ∧
    postsResolver (some 4) authedReq pagedStore =
      .ok { posts := (((sortByCreatedDesc pagedStore.posts).drop ((4 - 1) * 2)).take 2).map
              renderPost,
            totalPosts := pagedStore.posts.length } :=
  ⟨rfl, (posts_pagination authedReq pagedStore rfl).1,
   ((posts_pagination authedReq pagedStore rfl).2.2.2 4).1⟩

end GqlApp
